import Mathlib

/-!
Verification of the DOM utility layer of the `frontend-pariwisata` repository
(`domUtils.ts`).  The browser document is embedded as an explicit state value:
an association list from element ids to element records, together with the
body overflow style, the list of notification nodes appended to the body and
the queue of scheduled removal timers.  Each exported function of
`domUtils.ts` becomes a Lean function over this state; functions that mutate
the document return the new state together with the value the source returns.
-/

/-- The mutable fields of a DOM element that the utilities read or write:
`value` (inputs and textareas), `checked` (checkboxes), `textContent`,
`innerHTML`, `src` (images), the class list and the `disabled` flag. -/
structure Elem where
  value : String
  checked : Bool
  textContent : String
  innerHTML : String
  src : String
  classList : List String
  disabled : Bool
deriving DecidableEq, Repr

/-- Source `DOMTokenList.add`: appends the class when it is not already present. -/
def classListAdd (l : List String) (c : String) : List String :=
  if c ∈ l then l else l ++ [c]

/-- Source `DOMTokenList.remove`: removes every occurrence of the class. -/
def classListRemove (l : List String) (c : String) : List String :=
  l.filter (fun x => x ≠ c)

/-- Source `DOMTokenList.toggle`: removes the class when present, adds it otherwise. -/
def classListToggle (l : List String) (c : String) : List String :=
  if c ∈ l then classListRemove l c else classListAdd l c

/-- The notification type argument of `showNotification`. -/
inductive NotifType
  | success
  | error
  | warning
deriving DecidableEq, Repr

/-- The `colors` table of `showNotification`. -/
def notifColor : NotifType → String
  | .success => "bg-green-500"
  | .error => "bg-red-500"
  | .warning => "bg-yellow-500"

/-- The `icons` table of `showNotification`. -/
def notifIcon : NotifType → String
  | .success => "fa-check-circle"
  | .error => "fa-exclamation-triangle"
  | .warning => "fa-exclamation-triangle"

/-- A node created by `showNotification` and appended to `document.body`. -/
structure NotifNode where
  nodeId : Nat
  className : String
  innerHTML : String
deriving DecidableEq, Repr

/-- The document state: elements addressable by id, the body overflow style
(written by `ModalUtils`), the notification nodes currently appended to the
body, a counter providing fresh node ids, and the queue of scheduled timers
as pairs of delay and target node id. -/
structure Doc where
  elems : List (String × Elem)
  bodyOverflow : String
  bodyNotifs : List NotifNode
  nextNodeId : Nat
  timers : List (Nat × Nat)
deriving DecidableEq, Repr

/-- First-match lookup in the element list, as `document.getElementById`. -/
def lookupElem (l : List (String × Elem)) (id : String) : Option Elem :=
  match l with
  | [] => none
  | (k, e) :: rest => if k = id then some e else lookupElem rest id

/-- Update the first element bound to `id`, leaving the rest unchanged. -/
def updateElem (l : List (String × Elem)) (id : String) (f : Elem → Elem) :
    List (String × Elem) :=
  match l with
  | [] => []
  | (k, e) :: rest =>
    if k = id then (k, f e) :: rest else (k, e) :: updateElem rest id f

/-- Source `getElementById` of `domUtils.ts` (the type assertion is erased). -/
def getElementById (doc : Doc) (id : String) : Option Elem :=
  lookupElem doc.elems id

/-- Update the element bound to `id` inside the document. -/
def docUpdate (doc : Doc) (id : String) (f : Elem → Elem) : Doc :=
  { doc with elems := updateElem doc.elems id f }

/-- Source `getInputValue`: `element?.value || ''` (for a string the `|| ''` only
maps the empty string to itself, so it is the identity on the value). -/
def getInputValue (doc : Doc) (id : String) : String :=
  match getElementById doc id with
  | some e => e.value
  | none => ""

/-- Source `setInputValue`: writes the value and returns `true` when the element
exists, otherwise returns `false` without touching the document. -/
def setInputValue (doc : Doc) (id : String) (value : String) : Doc × Bool :=
  match getElementById doc id with
  | some _ => (docUpdate doc id (fun e => { e with value := value }), true)
  | none => (doc, false)

/-- Source `getTextareaValue`: `element?.value || ''`. -/
def getTextareaValue (doc : Doc) (id : String) : String :=
  match getElementById doc id with
  | some e => e.value
  | none => ""

/-- Source `setTextareaValue`. -/
def setTextareaValue (doc : Doc) (id : String) (value : String) : Doc × Bool :=
  match getElementById doc id with
  | some _ => (docUpdate doc id (fun e => { e with value := value }), true)
  | none => (doc, false)

/-- Source `getCheckboxValue`: `element?.checked || false`. -/
def getCheckboxValue (doc : Doc) (id : String) : Bool :=
  match getElementById doc id with
  | some e => e.checked
  | none => false

/-- Source `setCheckboxValue`. -/
def setCheckboxValue (doc : Doc) (id : String) (checked : Bool) : Doc × Bool :=
  match getElementById doc id with
  | some _ => (docUpdate doc id (fun e => { e with checked := checked }), true)
  | none => (doc, false)

/-- Source `getTextContent`: `element?.textContent || ''`. -/
def getTextContent (doc : Doc) (id : String) : String :=
  match getElementById doc id with
  | some e => e.textContent
  | none => ""

/-- Source `setTextContent`. -/
def setTextContent (doc : Doc) (id : String) (text : String) : Doc × Bool :=
  match getElementById doc id with
  | some _ => (docUpdate doc id (fun e => { e with textContent := text }), true)
  | none => (doc, false)

/-- Source `getImageSrc`: `element?.src || ''`. -/
def getImageSrc (doc : Doc) (id : String) : String :=
  match getElementById doc id with
  | some e => e.src
  | none => ""

/-- Source `setImageSrc`. -/
def setImageSrc (doc : Doc) (id : String) (src : String) : Doc × Bool :=
  match getElementById doc id with
  | some _ => (docUpdate doc id (fun e => { e with src := src }), true)
  | none => (doc, false)

/-- Source `addClass`. -/
def addClass (doc : Doc) (id : String) (className : String) : Doc × Bool :=
  match getElementById doc id with
  | some _ =>
    (docUpdate doc id (fun e => { e with classList := classListAdd e.classList className }), true)
  | none => (doc, false)

/-- Source `removeClass`. -/
def removeClass (doc : Doc) (id : String) (className : String) : Doc × Bool :=
  match getElementById doc id with
  | some _ =>
    (docUpdate doc id (fun e => { e with classList := classListRemove e.classList className }), true)
  | none => (doc, false)

/-- Source `toggleClass`. -/
def toggleClass (doc : Doc) (id : String) (className : String) : Doc × Bool :=
  match getElementById doc id with
  | some _ =>
    (docUpdate doc id (fun e => { e with classList := classListToggle e.classList className }), true)
  | none => (doc, false)

/-- Source `hasClass`: `element?.classList.contains(className) || false`. -/
def hasClass (doc : Doc) (id : String) (className : String) : Bool :=
  match getElementById doc id with
  | some e => e.classList.contains className
  | none => false

/-- The class string of the notification node:
`fixed top-4 right-4 ${colors[type]} text-white px-6 py-3 rounded-lg shadow-lg
z-50 transition-all duration-300`. -/
def notifClassName (type : NotifType) : String :=
  "fixed top-4 right-4 " ++ notifColor type ++
    " text-white px-6 py-3 rounded-lg shadow-lg z-50 transition-all duration-300"

/-- The inner HTML of the notification node, built from the icon table and
the message exactly as the template literal in the source does. -/
def notifInnerHTML (message : String) (type : NotifType) : String :=
  "\n    <div class=\"flex items-center\">\n      <i class=\"fas " ++
    notifIcon type ++ " mr-2\"></i>\n      " ++ message ++ "\n    </div>\n  "

/-- Source `showNotification`: creates a fresh node, appends it to `document.body`
and schedules a `setTimeout` with the given duration whose callback starts
the removal of that node. -/
def showNotification (doc : Doc) (message : String) (type : NotifType)
    (duration : Nat) : Doc :=
  let node : NotifNode :=
    { nodeId := doc.nextNodeId
      className := notifClassName type
      innerHTML := notifInnerHTML message type }
  { doc with
      bodyNotifs := doc.bodyNotifs ++ [node]
      nextNodeId := doc.nextNodeId + 1
      timers := doc.timers ++ [(duration, node.nodeId)] }

/-- Source `showNotification` with the default arguments `type = 'success'`,
`duration = 3000`. -/
def showNotificationDefault (doc : Doc) (message : String) : Doc :=
  showNotification doc message NotifType.success 3000

/-- The effect on the body of the removal the scheduled timer performs
(`notification.parentNode?.removeChild(notification)` after the fade-out):
the node with the given id disappears from the body. -/
def runNotifRemoval (doc : Doc) (nodeId : Nat) : Doc :=
  { doc with bodyNotifs := doc.bodyNotifs.filter (fun n => n.nodeId ≠ nodeId) }

namespace ModalUtils

/-- Source `ModalUtils.show`: when the modal element exists, removes the `hidden`
class, sets `document.body.style.overflow = 'hidden'` and returns `true`;
otherwise returns `false`. -/
def «show» (doc : Doc) (modalId : String) : Doc × Bool :=
  match getElementById doc modalId with
  | some _ =>
    ({ docUpdate doc modalId
        (fun e => { e with classList := classListRemove e.classList "hidden" }) with
        bodyOverflow := "hidden" }, true)
  | none => (doc, false)

/-- Source `ModalUtils.hide`: when the modal element exists, adds the `hidden`
class, sets `document.body.style.overflow = 'auto'` and returns `true`;
otherwise returns `false`. -/
def hide (doc : Doc) (modalId : String) : Doc × Bool :=
  match getElementById doc modalId with
  | some _ =>
    ({ docUpdate doc modalId
        (fun e => { e with classList := classListAdd e.classList "hidden" }) with
        bodyOverflow := "auto" }, true)
  | none => (doc, false)

end ModalUtils

/-- JavaScript `String.prototype.trim`: strips leading and trailing
whitespace. -/
def jsTrim (s : String) : String :=
  ⟨(s.data.dropWhile Char.isWhitespace).reverse.dropWhile Char.isWhitespace |>.reverse⟩

/-- A character admitted by the regex class `[^\s@]`: neither whitespace
nor `@`. -/
def emailAtomChar (c : Char) : Bool :=
  !c.isWhitespace && c ≠ '@'

namespace FormUtils

/-- Source `FormUtils.validateRequired`: the loop body, pushing every id whose
input value trims to the empty string. -/
def requiredMissing (doc : Doc) : List String → List String
  | [] => []
  | id :: rest =>
    if jsTrim (getInputValue doc id) = "" then id :: requiredMissing doc rest
    else requiredMissing doc rest

/-- The result record of `FormUtils.validateRequired`. -/
structure RequiredResult where
  isValid : Bool
  missingFields : List String
deriving DecidableEq, Repr

/-- Source `FormUtils.validateRequired`. -/
def validateRequired (doc : Doc) (ids : List String) : RequiredResult :=
  let missingFields := requiredMissing doc ids
  { isValid := missingFields.length = 0, missingFields := missingFields }

/-- Source `FormUtils.validateEmail`, i.e. the test of the regex
`^[^\s@]+@[^\s@]+\.[^\s@]+$` on the whole string.  The regex matches
exactly when the character sequence splits as `A+ '@' A+ '.' A+` with
`A = [^\s@]`; since `'.'` itself lies in `A`, this holds exactly when some
position `i ≥ 1` holds `'@'`, some position `j` with `i + 2 ≤ j ≤ length - 2`
holds `'.'`, and every position other than `i` holds a character of `A`. -/
def validateEmail (email : String) : Bool :=
  let cs := email.data
  let n := cs.length
  (List.range n).any (fun i =>
    (List.range n).any (fun j =>
      decide (1 ≤ i) && decide (i + 2 ≤ j) && decide (j + 2 ≤ n) &&
      decide (cs.getD i ' ' = '@') && decide (cs.getD j ' ' = '.') &&
      (List.range n).all (fun k => k == i || emailAtomChar (cs.getD k ' '))))

/-- The result record of `FormUtils.validatePassword`. -/
structure PasswordResult where
  isValid : Bool
  errors : List String
deriving DecidableEq, Repr

/-- The regex `[A-Za-z]` applied to one character. -/
def isLetterChar (c : Char) : Bool :=
  ('A' ≤ c && c ≤ 'Z') || ('a' ≤ c && c ≤ 'z')

/-- The regex `[0-9]` applied to one character. -/
def isDigitChar (c : Char) : Bool :=
  '0' ≤ c && c ≤ '9'

/-- Source `FormUtils.validatePassword`: collects one error string per failing
check, in the order length, letter, digit. -/
def validatePassword (password : String) (minLength : Nat) : PasswordResult :=
  let errors : List String :=
    (if password.length < minLength then
      ["Password minimal " ++ toString minLength ++ " karakter"]
    else []) ++
    (if password.data.any isLetterChar then []
    else ["Password harus mengandung huruf"]) ++
    (if password.data.any isDigitChar then []
    else ["Password harus mengandung angka"])
  { isValid := errors.length = 0, errors := errors }

/-- Source `FormUtils.validatePassword` with the default `minLength = 8`. -/
def validatePasswordDefault (password : String) : PasswordResult :=
  validatePassword password 8

/-- Source `FormUtils.validatePasswordMatch`. -/
def validatePasswordMatch (password confirmPassword : String) : Bool :=
  password = confirmPassword

end FormUtils

/-- The closure returned by `LoadingUtils.setButtonLoading`: it captures the
button id it writes back to, the original `innerHTML` and the original
`disabled` flag. -/
structure RestoreHandle where
  buttonId : String
  originalText : String
  wasDisabled : Bool
deriving DecidableEq, Repr

/-- The closure returned by `LoadingUtils.setElementLoading`: it captures
the element id and the original `innerHTML`. -/
structure ElemRestoreHandle where
  elementId : String
  originalContent : String
deriving DecidableEq, Repr

/-- The spinner markup `<i class="fas fa-spinner fa-spin mr-2"></i>` followed
by the loading text. -/
def spinnerHTML (loadingText : String) : String :=
  "<i class=\"fas fa-spinner fa-spin mr-2\"></i>" ++ loadingText

namespace LoadingUtils

/-- Source `LoadingUtils.setButtonLoading`: `null` when the button is absent;
otherwise captures `innerHTML` and `disabled`, replaces them by the spinner
markup and `disabled = true`, and returns the restore closure. -/
def setButtonLoading (doc : Doc) (buttonId : String) (loadingText : String) :
    Doc × Option RestoreHandle :=
  match getElementById doc buttonId with
  | none => (doc, none)
  | some b =>
    (docUpdate doc buttonId
      (fun e => { e with innerHTML := spinnerHTML loadingText, disabled := true }),
     some { buttonId := buttonId, originalText := b.innerHTML, wasDisabled := b.disabled })

/-- The `restore` closure of `setButtonLoading`: writes the captured
`innerHTML` and `disabled` back to the button. -/
def restoreButton (doc : Doc) (h : RestoreHandle) : Doc :=
  docUpdate doc h.buttonId
    (fun e => { e with innerHTML := h.originalText, disabled := h.wasDisabled })

/-- Source `LoadingUtils.setElementLoading`: `null` when the element is absent;
otherwise captures `innerHTML`, replaces it by the spinner markup, and
returns the restore closure. -/
def setElementLoading (doc : Doc) (elementId : String) (loadingText : String) :
    Doc × Option ElemRestoreHandle :=
  match getElementById doc elementId with
  | none => (doc, none)
  | some e =>
    (docUpdate doc elementId
      (fun el => { el with innerHTML := spinnerHTML loadingText }),
     some { elementId := elementId, originalContent := e.innerHTML })

/-- The `restore` closure of `setElementLoading`. -/
def restoreElement (doc : Doc) (h : ElemRestoreHandle) : Doc :=
  docUpdate doc h.elementId (fun e => { e with innerHTML := h.originalContent })

end LoadingUtils

/-- The underlying `localStorage` object: its key-value content together with
two failure switches, `accessFail` (every access throws, as under a browser
security error) and `quotaFail` (writes throw, as when the quota is
exceeded). -/
structure LocalStorage where
  items : List (String × String)
  accessFail : Bool
  quotaFail : Bool
deriving DecidableEq, Repr

/-- First-match lookup among the stored pairs. -/
def lookupStr (l : List (String × String)) (key : String) : Option String :=
  match l with
  | [] => none
  | (k, v) :: rest => if k = key then some v else lookupStr rest key

/-- Store a value under a key, replacing any earlier binding. -/
def insertStr (l : List (String × String)) (key value : String) :
    List (String × String) :=
  match l with
  | [] => [(key, value)]
  | (k, v) :: rest =>
    if k = key then (k, value) :: rest else (k, v) :: insertStr rest key value

/-- Remove every binding of a key. -/
def removeStr (l : List (String × String)) (key : String) :
    List (String × String) :=
  l.filter (fun p => p.fst ≠ key)

/-- Source `localStorage.getItem`: throws when access fails, otherwise returns the
stored value or `null`. -/
def lsGetItem (ls : LocalStorage) (key : String) :
    Except String (Option String) :=
  if ls.accessFail then Except.error "SecurityError"
  else Except.ok (lookupStr ls.items key)

/-- Source `localStorage.setItem`: throws when access fails or the quota is
exceeded, otherwise stores the value. -/
def lsSetItem (ls : LocalStorage) (key value : String) :
    Except String LocalStorage :=
  if ls.accessFail || ls.quotaFail then Except.error "QuotaExceededError"
  else Except.ok { ls with items := insertStr ls.items key value }

/-- Source `localStorage.removeItem`: throws when access fails, otherwise removes
the binding. -/
def lsRemoveItem (ls : LocalStorage) (key : String) :
    Except String LocalStorage :=
  if ls.accessFail then Except.error "SecurityError"
  else Except.ok { ls with items := removeStr ls.items key }

/-- A JSON codec for the payload type of `getJSON`/`setJSON`:
`parse` models `JSON.parse` and `stringify` models `JSON.stringify`, both of
which may throw. -/
structure Codec (α : Type) where
  parse : String → Except String α
  stringify : α → Except String String

/-- A codec behaves like real JSON on the empty string: `JSON.parse('')`
always throws. -/
def Codec.jsonLike {α : Type} (c : Codec α) : Prop :=
  ∃ e, c.parse "" = Except.error e

namespace StorageUtils

/-- Source `StorageUtils.get`: the caught exception becomes `null`. -/
def get (ls : LocalStorage) (key : String) : Option String :=
  match lsGetItem ls key with
  | Except.ok v => v
  | Except.error _ => none

/-- Source `StorageUtils.set`: the caught exception becomes `false`; success leaves
the new storage behind and returns `true`. -/
def set (ls : LocalStorage) (key value : String) : LocalStorage × Bool :=
  match lsSetItem ls key value with
  | Except.ok ls2 => (ls2, true)
  | Except.error _ => (ls, false)

/-- Source `StorageUtils.remove`. -/
def remove (ls : LocalStorage) (key : String) : LocalStorage × Bool :=
  match lsRemoveItem ls key with
  | Except.ok ls2 => (ls2, true)
  | Except.error _ => (ls, false)

/-- Source `StorageUtils.getJSON`: `const item = localStorage.getItem(key);
return item ? JSON.parse(item) : null;` inside a try/catch.  The truthiness
test `item ?` sends both `null` and the empty string to `null`. -/
def getJSON {α : Type} (c : Codec α) (ls : LocalStorage) (key : String) :
    Option α :=
  match lsGetItem ls key with
  | Except.error _ => none
  | Except.ok none => none
  | Except.ok (some s) =>
    if s = "" then none
    else
      match c.parse s with
      | Except.ok v => some v
      | Except.error _ => none

/-- Source `StorageUtils.setJSON`: stringify, then store; any exception becomes
`false`. -/
def setJSON {α : Type} (c : Codec α) (ls : LocalStorage) (key : String)
    (value : α) : LocalStorage × Bool :=
  match c.stringify value with
  | Except.error _ => (ls, false)
  | Except.ok s =>
    match lsSetItem ls key s with
    | Except.ok ls2 => (ls2, true)
    | Except.error _ => (ls, false)

end StorageUtils

/-- The `ProfileFormData` interface. -/
structure ProfileFormData where
  fullName : String
  position : String
  email : String
  phone : String
  location : String
  address : String
  twoFactorAuth : Bool
  profileImage : Option String
deriving DecidableEq, Repr

/-- Source `Partial<ProfileFormData>`: every field may be `undefined`. -/
structure PartialProfileFormData where
  fullName : Option String
  position : Option String
  email : Option String
  phone : Option String
  location : Option String
  address : Option String
  twoFactorAuth : Option Bool
  profileImage : Option String
deriving DecidableEq, Repr

/-- JavaScript truthiness of an optional string: `undefined` and the empty
string are falsy. -/
def strTruthy : Option String → Bool
  | none => false
  | some s => s ≠ ""

/-- Source `if (data.f) setInputValue(id, data.f)` for one optional string field. -/
def condSetInput (doc : Doc) (id : String) (v : Option String) : Doc :=
  match v with
  | none => doc
  | some s => if s = "" then doc else (setInputValue doc id s).fst

/-- Source `if (data.address) setTextareaValue(id, data.address)`. -/
def condSetTextarea (doc : Doc) (id : String) (v : Option String) : Doc :=
  match v with
  | none => doc
  | some s => if s = "" then doc else (setTextareaValue doc id s).fst

/-- Source `if (data.profileImage) setImageSrc(id, data.profileImage)`. -/
def condSetImage (doc : Doc) (id : String) (v : Option String) : Doc :=
  match v with
  | none => doc
  | some s => if s = "" then doc else (setImageSrc doc id s).fst

/-- Source `if (data.twoFactorAuth !== undefined) setCheckboxValue(id, ...)`:
unlike the string fields this guard lets `false` through. -/
def condSetCheckbox (doc : Doc) (id : String) (v : Option Bool) : Doc :=
  match v with
  | none => doc
  | some b => (setCheckboxValue doc id b).fst

namespace ProfileFormUtils

/-- Source `ProfileFormUtils.getFormData`. -/
def getFormData (doc : Doc) : ProfileFormData :=
  { fullName := getInputValue doc "modalFullName"
    position := getInputValue doc "modalPosition"
    email := getInputValue doc "modalEmail"
    phone := getInputValue doc "modalPhone"
    location := getInputValue doc "modalLocation"
    address := getTextareaValue doc "modalAddress"
    twoFactorAuth := getCheckboxValue doc "modalTwoFactorAuth"
    profileImage := some (getImageSrc doc "modalProfileImage") }

/-- Source `ProfileFormUtils.setFormData`: each truthy field is written to its
modal input, in source order. -/
def setFormData (doc : Doc) (data : PartialProfileFormData) : Doc :=
  let doc := condSetInput doc "modalFullName" data.fullName
  let doc := condSetInput doc "modalPosition" data.position
  let doc := condSetInput doc "modalEmail" data.email
  let doc := condSetInput doc "modalPhone" data.phone
  let doc := condSetInput doc "modalLocation" data.location
  let doc := condSetTextarea doc "modalAddress" data.address
  let doc := condSetCheckbox doc "modalTwoFactorAuth" data.twoFactorAuth
  let doc := condSetImage doc "modalProfileImage" data.profileImage
  doc

/-- The result record of `ProfileFormUtils.validateForm`. -/
structure FormResult where
  isValid : Bool
  errors : List String
deriving DecidableEq, Repr

/-- Source `ProfileFormUtils.validateForm`: four required-field checks on the
trimmed strings, then the email-format check guarded by the truthiness of
the untrimmed email. -/
def validateForm (data : ProfileFormData) : FormResult :=
  let errors : List String :=
    (if jsTrim data.fullName = "" then ["Nama lengkap wajib diisi"] else []) ++
    (if jsTrim data.position = "" then ["Jabatan wajib diisi"] else []) ++
    (if jsTrim data.email = "" then ["Email wajib diisi"] else []) ++
    (if jsTrim data.phone = "" then ["Nomor telepon wajib diisi"] else []) ++
    (if data.email ≠ "" && !FormUtils.validateEmail data.email then
      ["Format email tidak valid"]
    else [])
  { isValid := errors.length = 0, errors := errors }

end ProfileFormUtils

/-! ### Lemmas about the element store -/

theorem lookupElem_updateElem_self (l : List (String × Elem)) (id : String)
    (f : Elem → Elem) :
    lookupElem (updateElem l id f) id = (lookupElem l id).map f := by
  induction l with
  | nil => rfl
  | cons p rest ih =>
    obtain ⟨k, e⟩ := p
    by_cases h : k = id
    · simp [lookupElem, updateElem, h]
    · simp [lookupElem, updateElem, h, ih]

theorem lookupElem_updateElem_ne (l : List (String × Elem)) (id id2 : String)
    (f : Elem → Elem) (h : id ≠ id2) :
    lookupElem (updateElem l id2 f) id = lookupElem l id := by
  have h2 : id2 ≠ id := fun hx => h hx.symm
  induction l with
  | nil => rfl
  | cons p rest ih =>
    obtain ⟨k, e⟩ := p
    by_cases hk : k = id2 <;> by_cases hk2 : k = id
    · exact (h (hk2.symm.trans hk)).elim
    all_goals simp [lookupElem, updateElem, hk, hk2, h, h2, ih]

theorem updateElem_updateElem (l : List (String × Elem)) (id : String)
    (f g : Elem → Elem) :
    updateElem (updateElem l id f) id g = updateElem l id (fun e => g (f e)) := by
  induction l with
  | nil => rfl
  | cons p rest ih =>
    obtain ⟨k, e⟩ := p
    by_cases h : k = id
    · simp [updateElem, h]
    · simp [updateElem, h, ih]

theorem classListRemove_idem (l : List String) (c : String) :
    classListRemove (classListRemove l c) c = classListRemove l c := by
  simp [classListRemove, List.filter_filter]

theorem mem_classListAdd (l : List String) (c : String) : c ∈ classListAdd l c := by
  by_cases h : c ∈ l <;> simp [classListAdd, h]

theorem classListAdd_idem (l : List String) (c : String) :
    classListAdd (classListAdd l c) c = classListAdd l c := by
  by_cases hl : c ∈ l <;> simp [classListAdd, hl]

/-! ### The document used by the concrete witnesses -/

/-- A document with no elements at all. -/
def emptyDoc : Doc :=
  { elems := [], bodyOverflow := "auto", bodyNotifs := [], nextNodeId := 0,
    timers := [] }

/-- A sample element carrying a value, a class list and some markup. -/
def sampleElem : Elem :=
  { value := "old", checked := false, textContent := "hello",
    innerHTML := "<b>Simpan</b>", src := "", classList := ["hidden"],
    disabled := false }

/-- A document holding the single element `name`. -/
def sampleDoc : Doc :=
  { elems := [("name", sampleElem)], bodyOverflow := "auto", bodyNotifs := [],
    nextNodeId := 0, timers := [] }

/-! ### C1: absent elements degrade to defaults without touching the DOM -/

/-- C1: for an id absent from the document, `getInputValue`,
`getTextareaValue`, `getTextContent` and `getImageSrc` return `""`,
`getCheckboxValue` and `hasClass` return `false`, every setter
(`setInputValue`, `setTextareaValue`, `setCheckboxValue`, `setTextContent`,
`setImageSrc`, `addClass`, `removeClass`, `toggleClass`, `ModalUtils.show`,
`ModalUtils.hide`) returns `false` with the document unchanged, and the two
`LoadingUtils` functions return `null` with the document unchanged. -/
theorem absent_element_defaults (doc : Doc) (id : String) (v : String)
    (b : Bool) (cls : String) (h : getElementById doc id = none) :
    getInputValue doc id = "" ∧
    getTextareaValue doc id = "" ∧
    getTextContent doc id = "" ∧
    getImageSrc doc id = "" ∧
    getCheckboxValue doc id = false ∧
    hasClass doc id cls = false ∧
    setInputValue doc id v = (doc, false) ∧
    setTextareaValue doc id v = (doc, false) ∧
    setCheckboxValue doc id b = (doc, false) ∧
    setTextContent doc id v = (doc, false) ∧
    setImageSrc doc id v = (doc, false) ∧
    addClass doc id cls = (doc, false) ∧
    removeClass doc id cls = (doc, false) ∧
    toggleClass doc id cls = (doc, false) ∧
    ModalUtils.«show» doc id = (doc, false) ∧
    ModalUtils.hide doc id = (doc, false) ∧
    LoadingUtils.setButtonLoading doc id v = (doc, none) ∧
    LoadingUtils.setElementLoading doc id v = (doc, none) := by
  simp [getInputValue, getTextareaValue, getTextContent, getImageSrc,
    getCheckboxValue, hasClass, setInputValue, setTextareaValue,
    setCheckboxValue, setTextContent, setImageSrc, addClass, removeClass,
    toggleClass, ModalUtils.«show», ModalUtils.hide,
    LoadingUtils.setButtonLoading, LoadingUtils.setElementLoading, h]

/-- Witness for C1 at the empty document and the id `missing`. -/
theorem absent_element_defaults_witness :
    getInputValue emptyDoc "missing" = "" ∧
    getTextareaValue emptyDoc "missing" = "" ∧
    getTextContent emptyDoc "missing" = "" ∧
    getImageSrc emptyDoc "missing" = "" ∧
    getCheckboxValue emptyDoc "missing" = false ∧
    hasClass emptyDoc "missing" "hidden" = false ∧
    setInputValue emptyDoc "missing" "x" = (emptyDoc, false) ∧
    setTextareaValue emptyDoc "missing" "x" = (emptyDoc, false) ∧
    setCheckboxValue emptyDoc "missing" true = (emptyDoc, false) ∧
    setTextContent emptyDoc "missing" "x" = (emptyDoc, false) ∧
    setImageSrc emptyDoc "missing" "x" = (emptyDoc, false) ∧
    addClass emptyDoc "missing" "hidden" = (emptyDoc, false) ∧
    removeClass emptyDoc "missing" "hidden" = (emptyDoc, false) ∧
    toggleClass emptyDoc "missing" "hidden" = (emptyDoc, false) ∧
    ModalUtils.«show» emptyDoc "missing" = (emptyDoc, false) ∧
    ModalUtils.hide emptyDoc "missing" = (emptyDoc, false) ∧
    LoadingUtils.setButtonLoading emptyDoc "missing" "x" = (emptyDoc, none) ∧
    LoadingUtils.setElementLoading emptyDoc "missing" "x" = (emptyDoc, none) :=
  absent_element_defaults emptyDoc "missing" "x" true "hidden" rfl

/-! ### C3: set-then-get round-trip on an existing input -/

/-- C3: when the element exists, `setInputValue` returns `true` and a
subsequent `getInputValue` returns exactly the written string. -/
theorem setInputValue_getInputValue_roundtrip (doc : Doc) (id v : String)
    (e : Elem) (h : getElementById doc id = some e) :
    (setInputValue doc id v).snd = true ∧
    getInputValue (setInputValue doc id v).fst id = v := by
  constructor
  · simp [setInputValue, h]
  · have h2 : lookupElem doc.elems id = some e := h
    simp [setInputValue, getInputValue, h, getElementById, docUpdate,
      lookupElem_updateElem_self, h2]

/-- Witness for C3 at the sample document. -/
theorem setInputValue_getInputValue_roundtrip_witness :
    (setInputValue sampleDoc "name" "Putry").snd = true ∧
    getInputValue (setInputValue sampleDoc "name" "Putry").fst "name" = "Putry" :=
  setInputValue_getInputValue_roundtrip sampleDoc "name" "Putry" sampleElem rfl

/-! ### C6: modal show/hide behaviour and idempotence -/

/-- C6: on an existing modal, `show` removes the `hidden` class, sets the
body overflow to `hidden` and returns `true`; `hide` adds the class, sets
the overflow to `auto` and returns `true`; and both operations are
idempotent on the whole document state. -/
theorem modal_show_hide_idempotent (doc : Doc) (modalId : String) (e : Elem)
    (h : getElementById doc modalId = some e) :
    (ModalUtils.«show» doc modalId).snd = true ∧
    (getElementById (ModalUtils.«show» doc modalId).fst modalId =
      some { e with classList := classListRemove e.classList "hidden" }) ∧
    (ModalUtils.«show» doc modalId).fst.bodyOverflow = "hidden" ∧
    (ModalUtils.hide doc modalId).snd = true ∧
    (getElementById (ModalUtils.hide doc modalId).fst modalId =
      some { e with classList := classListAdd e.classList "hidden" }) ∧
    (ModalUtils.hide doc modalId).fst.bodyOverflow = "auto" ∧
    (ModalUtils.«show» (ModalUtils.«show» doc modalId).fst modalId).fst =
      (ModalUtils.«show» doc modalId).fst ∧
    (ModalUtils.hide (ModalUtils.hide doc modalId).fst modalId).fst =
      (ModalUtils.hide doc modalId).fst := by
  have h2 : lookupElem doc.elems modalId = some e := h
  refine ⟨?_, ?_, ?_, ?_, ?_, ?_, ?_, ?_⟩
  · simp [ModalUtils.«show», h]
  · simp [ModalUtils.«show», h, getElementById, docUpdate,
      lookupElem_updateElem_self, h2]
  · simp [ModalUtils.«show», h, docUpdate]
  · simp [ModalUtils.hide, h]
  · simp [ModalUtils.hide, h, getElementById, docUpdate,
      lookupElem_updateElem_self, h2]
  · simp [ModalUtils.hide, h, docUpdate]
  · simp [ModalUtils.«show», h, getElementById, docUpdate,
      lookupElem_updateElem_self, h2, updateElem_updateElem,
      classListRemove_idem]
  · simp [ModalUtils.hide, h, getElementById, docUpdate,
      lookupElem_updateElem_self, h2, updateElem_updateElem,
      classListAdd_idem]

/-- Witness for C6 at the sample document. -/
theorem modal_show_hide_idempotent_witness :
    (ModalUtils.«show» sampleDoc "name").snd = true ∧
    (ModalUtils.«show» sampleDoc "name").fst.bodyOverflow = "hidden" ∧
    (ModalUtils.«show» (ModalUtils.«show» sampleDoc "name").fst "name").fst =
      (ModalUtils.«show» sampleDoc "name").fst ∧
    (ModalUtils.hide (ModalUtils.hide sampleDoc "name").fst "name").fst =
      (ModalUtils.hide sampleDoc "name").fst :=
  ⟨(modal_show_hide_idempotent sampleDoc "name" sampleElem rfl).1,
   (modal_show_hide_idempotent sampleDoc "name" sampleElem rfl).2.2.1,
   (modal_show_hide_idempotent sampleDoc "name" sampleElem rfl).2.2.2.2.2.2.1,
   (modal_show_hide_idempotent sampleDoc "name" sampleElem rfl).2.2.2.2.2.2.2⟩

/-! ### C10: button loading round-trip -/

/-- C10: on an existing button, `setButtonLoading` captures `innerHTML` and
`disabled`, replaces them by the spinner markup and `disabled = true`, and
the returned handle's `restore` puts both captured fields back. -/
theorem setButtonLoading_restore_roundtrip (doc : Doc)
    (buttonId loadingText : String) (b : Elem)
    (h : getElementById doc buttonId = some b) :
    ∃ hd, (LoadingUtils.setButtonLoading doc buttonId loadingText).snd = some hd ∧
      hd.originalText = b.innerHTML ∧
      hd.wasDisabled = b.disabled ∧
      (∃ b2, getElementById
          (LoadingUtils.setButtonLoading doc buttonId loadingText).fst buttonId =
          some b2 ∧ b2.innerHTML = spinnerHTML loadingText ∧ b2.disabled = true) ∧
      (∃ b3, getElementById
          (LoadingUtils.restoreButton
            (LoadingUtils.setButtonLoading doc buttonId loadingText).fst hd)
          buttonId = some b3 ∧
        b3.innerHTML = b.innerHTML ∧ b3.disabled = b.disabled) := by
  have h2 : lookupElem doc.elems buttonId = some b := h
  refine ⟨{ buttonId := buttonId, originalText := b.innerHTML,
            wasDisabled := b.disabled }, ?_, rfl, rfl, ?_, ?_⟩
  · simp [LoadingUtils.setButtonLoading, h]
  · refine ⟨{ b with innerHTML := spinnerHTML loadingText, disabled := true },
      ?_, rfl, rfl⟩
    simp [LoadingUtils.setButtonLoading, h, getElementById, docUpdate,
      lookupElem_updateElem_self, h2]
  · refine ⟨b, ?_, rfl, rfl⟩
    simp [LoadingUtils.setButtonLoading, LoadingUtils.restoreButton, h,
      getElementById, docUpdate, lookupElem_updateElem_self,
      updateElem_updateElem, h2]

/-- Witness for C10 at the sample document. -/
theorem setButtonLoading_restore_roundtrip_witness :
    ∃ hd, (LoadingUtils.setButtonLoading sampleDoc "name" "Memuat...").snd = some hd ∧
      hd.originalText = sampleElem.innerHTML ∧
      hd.wasDisabled = sampleElem.disabled ∧
      (∃ b2, getElementById
          (LoadingUtils.setButtonLoading sampleDoc "name" "Memuat...").fst "name" =
          some b2 ∧ b2.innerHTML = spinnerHTML "Memuat..." ∧ b2.disabled = true) ∧
      (∃ b3, getElementById
          (LoadingUtils.restoreButton
            (LoadingUtils.setButtonLoading sampleDoc "name" "Memuat...").fst hd)
          "name" = some b3 ∧
        b3.innerHTML = sampleElem.innerHTML ∧ b3.disabled = sampleElem.disabled) :=
  setButtonLoading_restore_roundtrip sampleDoc "name" "Memuat..." sampleElem rfl

/-! ### C5: showNotification always appends one node and schedules its
removal -/

/-- C5: on every call and every document state, `showNotification` appends
exactly one fresh node to the body, schedules exactly one timer with the
given duration targeting that node (the default duration being 3000 ms),
and the scheduled removal takes exactly that node out of the body again;
the function is total, so no call state makes it fail or throw. -/
theorem showNotification_appends_and_schedules (doc : Doc) (message : String)
    (type : NotifType) (duration : Nat) :
    (showNotification doc message type duration).bodyNotifs =
      doc.bodyNotifs ++
        [{ nodeId := doc.nextNodeId, className := notifClassName type,
           innerHTML := notifInnerHTML message type }] ∧
    (showNotification doc message type duration).timers =
      doc.timers ++ [(duration, doc.nextNodeId)] ∧
    showNotificationDefault doc message =
      showNotification doc message NotifType.success 3000 ∧
    ((∀ n ∈ doc.bodyNotifs, n.nodeId ≠ doc.nextNodeId) →
      (runNotifRemoval (showNotification doc message type duration)
          doc.nextNodeId).bodyNotifs = doc.bodyNotifs) := by
  refine ⟨rfl, rfl, rfl, fun h => ?_⟩
  simp [showNotification, runNotifRemoval, List.filter_append]
  exact h

/-- Witness for C5 at the sample document. -/
theorem showNotification_appends_and_schedules_witness :
    (showNotification sampleDoc "Tersimpan" NotifType.success 3000).timers =
      sampleDoc.timers ++ [(3000, sampleDoc.nextNodeId)] ∧
    (runNotifRemoval (showNotification sampleDoc "Tersimpan" NotifType.success 3000)
        sampleDoc.nextNodeId).bodyNotifs = sampleDoc.bodyNotifs :=
  ⟨(showNotification_appends_and_schedules sampleDoc "Tersimpan"
      NotifType.success 3000).2.1,
   (showNotification_appends_and_schedules sampleDoc "Tersimpan"
      NotifType.success 3000).2.2.2 (by simp [sampleDoc])⟩

/-! ### C2: password validation -/

/-- C2: `validatePassword` is valid exactly when the password reaches the
minimum length (default 8), contains a character of `[A-Za-z]` and contains
a character of `[0-9]`; its error list holds exactly one message per failing
check, in the fixed order length, letter, digit. -/
theorem validatePassword_spec (password : String) (minLength : Nat) :
    ((FormUtils.validatePassword password minLength).isValid = true ↔
      (minLength ≤ password.length ∧
       (∃ c ∈ password.data, FormUtils.isLetterChar c = true) ∧
       (∃ c ∈ password.data, FormUtils.isDigitChar c = true))) ∧
    (FormUtils.validatePassword password minLength).errors =
      (if password.length < minLength then
        ["Password minimal " ++ toString minLength ++ " karakter"]
      else []) ++
      (if ∃ c ∈ password.data, FormUtils.isLetterChar c = true then []
      else ["Password harus mengandung huruf"]) ++
      (if ∃ c ∈ password.data, FormUtils.isDigitChar c = true then []
      else ["Password harus mengandung angka"]) ∧
    FormUtils.validatePasswordDefault password =
      FormUtils.validatePassword password 8 := by
  refine ⟨?_, ?_, rfl⟩ <;>
    by_cases h1 : password.length < minLength <;>
    by_cases h2 : password.data.any FormUtils.isLetterChar = true <;>
    by_cases h3 : password.data.any FormUtils.isDigitChar = true <;>
    simp_all [FormUtils.validatePassword, List.any_eq_true, Nat.not_lt]

/-! ### C7: required-field validation -/

theorem requiredMissing_eq_filter (doc : Doc) (ids : List String) :
    FormUtils.requiredMissing doc ids =
      ids.filter (fun id => jsTrim (getInputValue doc id) = "") := by
  induction ids with
  | nil => rfl
  | cons id rest ih =>
    by_cases h : jsTrim (getInputValue doc id) = "" <;>
      simp [FormUtils.requiredMissing, h, ih]

/-- C7: `validateRequired` returns as `missingFields` exactly the given ids,
in the given order, whose input value trims to the empty string; an id with
no element counts as empty; `isValid` holds exactly when `missingFields` is
empty. -/
theorem validateRequired_spec (doc : Doc) (ids : List String) :
    (FormUtils.validateRequired doc ids).missingFields =
      ids.filter (fun id => jsTrim (getInputValue doc id) = "") ∧
    ((FormUtils.validateRequired doc ids).isValid = true ↔
      (FormUtils.validateRequired doc ids).missingFields = []) ∧
    (∀ id, getElementById doc id = none → jsTrim (getInputValue doc id) = "") := by
  refine ⟨?_, ?_, ?_⟩
  · simp [FormUtils.validateRequired, requiredMissing_eq_filter]
  · simp [FormUtils.validateRequired, List.length_eq_zero]
  · intro id h
    simp [getInputValue, h]
    rfl

/-- Witness for C7: in the sample document the id `name` holds the value
`old` while `missing` has no element, so exactly `missing` is reported. -/
theorem validateRequired_spec_witness :
    (FormUtils.validateRequired sampleDoc ["name", "missing"]).missingFields =
      (["name", "missing"]).filter
        (fun id => jsTrim (getInputValue sampleDoc id) = "") ∧
    jsTrim (getInputValue sampleDoc "missing") = "" :=
  ⟨(validateRequired_spec sampleDoc ["name", "missing"]).1,
   (validateRequired_spec sampleDoc ["name", "missing"]).2.2 "missing" rfl⟩

/-! ### C4: storage utilities convert exceptions to boolean/null results -/

/-- C4: every `StorageUtils` operation is a pass-through over the underlying
storage primitive whose thrown exception becomes `null` (for `get`,
`getJSON`) or `false` (for `set`, `remove`, `setJSON`), and whose success
becomes the stored/parsed value resp. `true` with the updated storage; the
Lean embeddings are total, so no exception reaches the caller. -/
theorem storageUtils_exception_to_result {α : Type} (c : Codec α)
    (ls : LocalStorage) (key value : String) (x : α) :
    (∀ e, lsGetItem ls key = Except.error e → StorageUtils.get ls key = none) ∧
    (∀ r, lsGetItem ls key = Except.ok r → StorageUtils.get ls key = r) ∧
    (∀ e, lsSetItem ls key value = Except.error e →
      StorageUtils.set ls key value = (ls, false)) ∧
    (∀ ls2, lsSetItem ls key value = Except.ok ls2 →
      StorageUtils.set ls key value = (ls2, true)) ∧
    (∀ e, lsRemoveItem ls key = Except.error e →
      StorageUtils.remove ls key = (ls, false)) ∧
    (∀ ls2, lsRemoveItem ls key = Except.ok ls2 →
      StorageUtils.remove ls key = (ls2, true)) ∧
    (∀ e, lsGetItem ls key = Except.error e →
      StorageUtils.getJSON c ls key = none) ∧
    (lsGetItem ls key = Except.ok none → StorageUtils.getJSON c ls key = none) ∧
    (∀ s e, lsGetItem ls key = Except.ok (some s) → c.parse s = Except.error e →
      StorageUtils.getJSON c ls key = none) ∧
    (∀ s v, c.jsonLike → lsGetItem ls key = Except.ok (some s) →
      c.parse s = Except.ok v → StorageUtils.getJSON c ls key = some v) ∧
    (∀ e, c.stringify x = Except.error e →
      StorageUtils.setJSON c ls key x = (ls, false)) ∧
    (∀ s e, c.stringify x = Except.ok s → lsSetItem ls key s = Except.error e →
      StorageUtils.setJSON c ls key x = (ls, false)) ∧
    (∀ s ls2, c.stringify x = Except.ok s → lsSetItem ls key s = Except.ok ls2 →
      StorageUtils.setJSON c ls key x = (ls2, true)) := by
  refine ⟨?_, ?_, ?_, ?_, ?_, ?_, ?_, ?_, ?_, ?_, ?_, ?_, ?_⟩
  · intro e h; simp [StorageUtils.get, h]
  · intro r h; simp [StorageUtils.get, h]
  · intro e h; simp [StorageUtils.set, h]
  · intro ls2 h; simp [StorageUtils.set, h]
  · intro e h; simp [StorageUtils.remove, h]
  · intro ls2 h; simp [StorageUtils.remove, h]
  · intro e h; simp [StorageUtils.getJSON, h]
  · intro h; simp [StorageUtils.getJSON, h]
  · intro s e h hp
    by_cases hs : s = "" <;> simp [StorageUtils.getJSON, h, hp, hs]
  · intro s v hjson h hp
    by_cases hs : s = ""
    · obtain ⟨e, he⟩ := hjson
      rw [hs] at hp
      rw [hp] at he
      exact absurd he (by simp)
    · simp [StorageUtils.getJSON, h, hp, hs]
  · intro e h; simp [StorageUtils.setJSON, h]
  · intro s e h hp; simp [StorageUtils.setJSON, h, hp]
  · intro s ls2 h hp; simp [StorageUtils.setJSON, h, hp]

/-- A concrete codec for the witness: `parse` accepts exactly the string
`ok`, and `stringify` always produces `ok`. -/
def okCodec : Codec Nat :=
  { parse := fun s => if s = "ok" then Except.ok 1 else Except.error "bad"
    stringify := fun _ => Except.ok "ok" }

/-- A concrete storage holding one key, with no failure switched on. -/
def sampleStorage : LocalStorage :=
  { items := [("k", "ok")], accessFail := false, quotaFail := false }

/-- A storage whose accesses all throw. -/
def brokenStorage : LocalStorage :=
  { items := [("k", "ok")], accessFail := true, quotaFail := false }

/-- Witness for C4: reading the stored value succeeds on the healthy
storage, parses through `getJSON`, and degrades to `null`/`false` on the
broken storage. -/
theorem storageUtils_exception_to_result_witness :
    StorageUtils.get sampleStorage "k" = some "ok" ∧
    StorageUtils.getJSON okCodec sampleStorage "k" = some 1 ∧
    StorageUtils.get brokenStorage "k" = none ∧
    StorageUtils.set brokenStorage "k" "v" = (brokenStorage, false) ∧
    StorageUtils.setJSON okCodec sampleStorage "k" 7 =
      ({ sampleStorage with items := [("k", "ok")] }, true) :=
  ⟨(storageUtils_exception_to_result okCodec sampleStorage "k" "v" 1).2.1
      (some "ok") rfl,
   (storageUtils_exception_to_result okCodec sampleStorage "k" "v" 1).2.2.2.2.2.2.2.2.2.1
      "ok" 1 ⟨"bad", rfl⟩ rfl rfl,
   (storageUtils_exception_to_result okCodec brokenStorage "k" "v" 1).1
      "SecurityError" rfl,
   (storageUtils_exception_to_result okCodec brokenStorage "k" "v" 1).2.2.1
      "QuotaExceededError" rfl,
   (storageUtils_exception_to_result okCodec sampleStorage "k" "v" 7).2.2.2.2.2.2.2.2.2.2.2.2
      "ok" { sampleStorage with items := [("k", "ok")] } rfl rfl⟩

/-! ### C8: setFormData only writes truthy fields -/

theorem condSetInput_ne (doc : Doc) (id id2 : String) (v : Option String)
    (h : id ≠ id2) :
    getElementById (condSetInput doc id2 v) id = getElementById doc id := by
  cases v with
  | none => rfl
  | some s =>
    by_cases hs : s = ""
    · simp [condSetInput, hs]
    · cases hg : getElementById doc id2 with
      | none => simp [condSetInput, hs, setInputValue, hg]
      | some e =>
        have hg2 : lookupElem doc.elems id2 = some e := hg
        simp [condSetInput, hs, setInputValue, hg, hg2, getElementById, docUpdate,
          lookupElem_updateElem_ne _ _ _ _ h]

theorem condSetTextarea_ne (doc : Doc) (id id2 : String) (v : Option String)
    (h : id ≠ id2) :
    getElementById (condSetTextarea doc id2 v) id = getElementById doc id := by
  cases v with
  | none => rfl
  | some s =>
    by_cases hs : s = ""
    · simp [condSetTextarea, hs]
    · cases hg : getElementById doc id2 with
      | none => simp [condSetTextarea, hs, setTextareaValue, hg]
      | some e =>
        have hg2 : lookupElem doc.elems id2 = some e := hg
        simp [condSetTextarea, hs, setTextareaValue, hg, hg2, getElementById,
          docUpdate, lookupElem_updateElem_ne _ _ _ _ h]

theorem condSetImage_ne (doc : Doc) (id id2 : String) (v : Option String)
    (h : id ≠ id2) :
    getElementById (condSetImage doc id2 v) id = getElementById doc id := by
  cases v with
  | none => rfl
  | some s =>
    by_cases hs : s = ""
    · simp [condSetImage, hs]
    · cases hg : getElementById doc id2 with
      | none => simp [condSetImage, hs, setImageSrc, hg]
      | some e =>
        have hg2 : lookupElem doc.elems id2 = some e := hg
        simp [condSetImage, hs, setImageSrc, hg, hg2, getElementById, docUpdate,
          lookupElem_updateElem_ne _ _ _ _ h]

theorem condSetCheckbox_ne (doc : Doc) (id id2 : String) (v : Option Bool)
    (h : id ≠ id2) :
    getElementById (condSetCheckbox doc id2 v) id = getElementById doc id := by
  cases v with
  | none => rfl
  | some b =>
    cases hg : getElementById doc id2 with
    | none => simp [condSetCheckbox, setCheckboxValue, hg]
    | some e =>
      have hg2 : lookupElem doc.elems id2 = some e := hg
      simp [condSetCheckbox, setCheckboxValue, hg, hg2, getElementById, docUpdate,
        lookupElem_updateElem_ne _ _ _ _ h]

theorem condSetInput_falsy (doc : Doc) (id : String) (v : Option String)
    (h : v = none ∨ v = some "") : condSetInput doc id v = doc := by
  rcases h with h | h <;> simp [condSetInput, h]

theorem condSetTextarea_falsy (doc : Doc) (id : String) (v : Option String)
    (h : v = none ∨ v = some "") : condSetTextarea doc id v = doc := by
  rcases h with h | h <;> simp [condSetTextarea, h]

theorem condSetImage_falsy (doc : Doc) (id : String) (v : Option String)
    (h : v = none ∨ v = some "") : condSetImage doc id v = doc := by
  rcases h with h | h <;> simp [condSetImage, h]

theorem condSetCheckbox_none (doc : Doc) (id : String) :
    condSetCheckbox doc id none = doc := rfl

/-- C8: `setFormData` only writes a form field whose value is truthy (for
`twoFactorAuth`, not `undefined`); every falsy field leaves its DOM element
untouched, and a non-empty text value can never be cleared to the empty
string (shown for the representative `fullName` field: after `setFormData`
its value is still non-empty). -/
theorem setFormData_frame (doc : Doc) (data : PartialProfileFormData) :
    ((data.fullName = none ∨ data.fullName = some "") →
      getElementById (ProfileFormUtils.setFormData doc data) "modalFullName" =
        getElementById doc "modalFullName") ∧
    ((data.position = none ∨ data.position = some "") →
      getElementById (ProfileFormUtils.setFormData doc data) "modalPosition" =
        getElementById doc "modalPosition") ∧
    ((data.email = none ∨ data.email = some "") →
      getElementById (ProfileFormUtils.setFormData doc data) "modalEmail" =
        getElementById doc "modalEmail") ∧
    ((data.phone = none ∨ data.phone = some "") →
      getElementById (ProfileFormUtils.setFormData doc data) "modalPhone" =
        getElementById doc "modalPhone") ∧
    ((data.location = none ∨ data.location = some "") →
      getElementById (ProfileFormUtils.setFormData doc data) "modalLocation" =
        getElementById doc "modalLocation") ∧
    ((data.address = none ∨ data.address = some "") →
      getElementById (ProfileFormUtils.setFormData doc data) "modalAddress" =
        getElementById doc "modalAddress") ∧
    (data.twoFactorAuth = none →
      getElementById (ProfileFormUtils.setFormData doc data) "modalTwoFactorAuth" =
        getElementById doc "modalTwoFactorAuth") ∧
    ((data.profileImage = none ∨ data.profileImage = some "") →
      getElementById (ProfileFormUtils.setFormData doc data) "modalProfileImage" =
        getElementById doc "modalProfileImage") ∧
    (∀ e, getElementById doc "modalFullName" = some e → e.value ≠ "" →
      ∃ e2, getElementById (ProfileFormUtils.setFormData doc data)
          "modalFullName" = some e2 ∧ e2.value ≠ "") := by
  refine ⟨?_, ?_, ?_, ?_, ?_, ?_, ?_, ?_, ?_⟩
  · intro h
    simp only [ProfileFormUtils.setFormData]
    rw [condSetImage_ne _ "modalFullName" "modalProfileImage" _ (by decide),
        condSetCheckbox_ne _ "modalFullName" "modalTwoFactorAuth" _ (by decide),
        condSetTextarea_ne _ "modalFullName" "modalAddress" _ (by decide),
        condSetInput_ne _ "modalFullName" "modalLocation" _ (by decide),
        condSetInput_ne _ "modalFullName" "modalPhone" _ (by decide),
        condSetInput_ne _ "modalFullName" "modalEmail" _ (by decide),
        condSetInput_ne _ "modalFullName" "modalPosition" _ (by decide),
        condSetInput_falsy _ _ _ h]
  · intro h
    simp only [ProfileFormUtils.setFormData]
    rw [condSetImage_ne _ "modalPosition" "modalProfileImage" _ (by decide),
        condSetCheckbox_ne _ "modalPosition" "modalTwoFactorAuth" _ (by decide),
        condSetTextarea_ne _ "modalPosition" "modalAddress" _ (by decide),
        condSetInput_ne _ "modalPosition" "modalLocation" _ (by decide),
        condSetInput_ne _ "modalPosition" "modalPhone" _ (by decide),
        condSetInput_ne _ "modalPosition" "modalEmail" _ (by decide),
        condSetInput_falsy _ _ _ h,
        condSetInput_ne _ "modalPosition" "modalFullName" _ (by decide)]
  · intro h
    simp only [ProfileFormUtils.setFormData]
    rw [condSetImage_ne _ "modalEmail" "modalProfileImage" _ (by decide),
        condSetCheckbox_ne _ "modalEmail" "modalTwoFactorAuth" _ (by decide),
        condSetTextarea_ne _ "modalEmail" "modalAddress" _ (by decide),
        condSetInput_ne _ "modalEmail" "modalLocation" _ (by decide),
        condSetInput_ne _ "modalEmail" "modalPhone" _ (by decide),
        condSetInput_falsy _ _ _ h,
        condSetInput_ne _ "modalEmail" "modalPosition" _ (by decide),
        condSetInput_ne _ "modalEmail" "modalFullName" _ (by decide)]
  · intro h
    simp only [ProfileFormUtils.setFormData]
    rw [condSetImage_ne _ "modalPhone" "modalProfileImage" _ (by decide),
        condSetCheckbox_ne _ "modalPhone" "modalTwoFactorAuth" _ (by decide),
        condSetTextarea_ne _ "modalPhone" "modalAddress" _ (by decide),
        condSetInput_ne _ "modalPhone" "modalLocation" _ (by decide),
        condSetInput_falsy _ _ _ h,
        condSetInput_ne _ "modalPhone" "modalEmail" _ (by decide),
        condSetInput_ne _ "modalPhone" "modalPosition" _ (by decide),
        condSetInput_ne _ "modalPhone" "modalFullName" _ (by decide)]
  · intro h
    simp only [ProfileFormUtils.setFormData]
    rw [condSetImage_ne _ "modalLocation" "modalProfileImage" _ (by decide),
        condSetCheckbox_ne _ "modalLocation" "modalTwoFactorAuth" _ (by decide),
        condSetTextarea_ne _ "modalLocation" "modalAddress" _ (by decide),
        condSetInput_falsy _ _ _ h,
        condSetInput_ne _ "modalLocation" "modalPhone" _ (by decide),
        condSetInput_ne _ "modalLocation" "modalEmail" _ (by decide),
        condSetInput_ne _ "modalLocation" "modalPosition" _ (by decide),
        condSetInput_ne _ "modalLocation" "modalFullName" _ (by decide)]
  · intro h
    simp only [ProfileFormUtils.setFormData]
    rw [condSetImage_ne _ "modalAddress" "modalProfileImage" _ (by decide),
        condSetCheckbox_ne _ "modalAddress" "modalTwoFactorAuth" _ (by decide),
        condSetTextarea_falsy _ _ _ h,
        condSetInput_ne _ "modalAddress" "modalLocation" _ (by decide),
        condSetInput_ne _ "modalAddress" "modalPhone" _ (by decide),
        condSetInput_ne _ "modalAddress" "modalEmail" _ (by decide),
        condSetInput_ne _ "modalAddress" "modalPosition" _ (by decide),
        condSetInput_ne _ "modalAddress" "modalFullName" _ (by decide)]
  · intro h
    simp only [ProfileFormUtils.setFormData, h]
    rw [condSetImage_ne _ "modalTwoFactorAuth" "modalProfileImage" _ (by decide),
        condSetCheckbox_none,
        condSetTextarea_ne _ "modalTwoFactorAuth" "modalAddress" _ (by decide),
        condSetInput_ne _ "modalTwoFactorAuth" "modalLocation" _ (by decide),
        condSetInput_ne _ "modalTwoFactorAuth" "modalPhone" _ (by decide),
        condSetInput_ne _ "modalTwoFactorAuth" "modalEmail" _ (by decide),
        condSetInput_ne _ "modalTwoFactorAuth" "modalPosition" _ (by decide),
        condSetInput_ne _ "modalTwoFactorAuth" "modalFullName" _ (by decide)]
  · intro h
    simp only [ProfileFormUtils.setFormData]
    rw [condSetImage_falsy _ _ _ h,
        condSetCheckbox_ne _ "modalProfileImage" "modalTwoFactorAuth" _ (by decide),
        condSetTextarea_ne _ "modalProfileImage" "modalAddress" _ (by decide),
        condSetInput_ne _ "modalProfileImage" "modalLocation" _ (by decide),
        condSetInput_ne _ "modalProfileImage" "modalPhone" _ (by decide),
        condSetInput_ne _ "modalProfileImage" "modalEmail" _ (by decide),
        condSetInput_ne _ "modalProfileImage" "modalPosition" _ (by decide),
        condSetInput_ne _ "modalProfileImage" "modalFullName" _ (by decide)]
  · intro e he hv
    simp only [ProfileFormUtils.setFormData]
    rw [condSetImage_ne _ "modalFullName" "modalProfileImage" _ (by decide),
        condSetCheckbox_ne _ "modalFullName" "modalTwoFactorAuth" _ (by decide),
        condSetTextarea_ne _ "modalFullName" "modalAddress" _ (by decide),
        condSetInput_ne _ "modalFullName" "modalLocation" _ (by decide),
        condSetInput_ne _ "modalFullName" "modalPhone" _ (by decide),
        condSetInput_ne _ "modalFullName" "modalEmail" _ (by decide),
        condSetInput_ne _ "modalFullName" "modalPosition" _ (by decide)]
    cases hf : data.fullName with
    | none => exact ⟨e, by simp [condSetInput, he], hv⟩
    | some s =>
      by_cases hs : s = ""
      · exact ⟨e, by simp [condSetInput, hs, he], hv⟩
      · refine ⟨{ e with value := s }, ?_, hs⟩
        have he2 : lookupElem doc.elems "modalFullName" = some e := he
        simp [condSetInput, hs, setInputValue, he, he2, getElementById,
          docUpdate, lookupElem_updateElem_self]

/-- Witness for C8: with every field falsy, `setFormData` leaves the sample
document's `name` element search results unchanged (vacuously, all modal ids
are absent here), shown at the all-falsy record. -/
theorem setFormData_frame_witness :
    getElementById
      (ProfileFormUtils.setFormData sampleDoc
        { fullName := none, position := some "", email := none, phone := none,
          location := none, address := some "", twoFactorAuth := none,
          profileImage := none }) "modalFullName" =
      getElementById sampleDoc "modalFullName" ∧
    getElementById
      (ProfileFormUtils.setFormData sampleDoc
        { fullName := none, position := some "", email := none, phone := none,
          location := none, address := some "", twoFactorAuth := none,
          profileImage := none }) "modalTwoFactorAuth" =
      getElementById sampleDoc "modalTwoFactorAuth" :=
  ⟨(setFormData_frame sampleDoc
      { fullName := none, position := some "", email := none, phone := none,
        location := none, address := some "", twoFactorAuth := none,
        profileImage := none }).1 (Or.inl rfl),
   (setFormData_frame sampleDoc
      { fullName := none, position := some "", email := none, phone := none,
        location := none, address := some "", twoFactorAuth := none,
        profileImage := none }).2.2.2.2.2.2.1 rfl⟩

/-! ### C9: whitespace-only email produces both email errors -/

theorem jsTrim_eq_empty (s : String) (h : ∀ c ∈ s.data, c.isWhitespace) :
    jsTrim s = "" := by
  have hd : s.data.dropWhile Char.isWhitespace = [] :=
    List.dropWhile_eq_nil_iff.mpr (fun x hx => h x hx)
  simp [jsTrim, hd]

theorem validateEmail_false_of_whitespace (s : String)
    (h : ∀ c ∈ s.data, c.isWhitespace) :
    FormUtils.validateEmail s = false := by
  apply Bool.eq_false_iff.mpr
  intro htrue
  simp only [FormUtils.validateEmail, List.any_eq_true, List.mem_range,
    Bool.and_eq_true, decide_eq_true_eq] at htrue
  obtain ⟨i, hi, j, hj, hrest⟩ := htrue
  have hat : s.data.getD i ' ' = '@' := by tauto
  have hmem : s.data.getD i ' ' ∈ s.data := by
    rw [List.getD_eq_getElem s.data ' ' hi]
    exact List.getElem_mem hi
  rw [hat] at hmem
  exact absurd (h '@' hmem) (by decide)

/-- C9: for a non-empty, all-whitespace email the trimmed value is empty and
the untrimmed value is truthy but fails the regex, so `validateForm` emits
both `Email wajib diisi` and `Format email tidak valid` and is invalid. -/
theorem validateForm_whitespace_email (data : ProfileFormData)
    (h1 : data.email ≠ "") (h2 : ∀ c ∈ data.email.data, c.isWhitespace) :
    "Email wajib diisi" ∈ (ProfileFormUtils.validateForm data).errors ∧
    "Format email tidak valid" ∈ (ProfileFormUtils.validateForm data).errors ∧
    (ProfileFormUtils.validateForm data).isValid = false := by
  have ht : jsTrim data.email = "" := jsTrim_eq_empty _ h2
  have hv : FormUtils.validateEmail data.email = false :=
    validateEmail_false_of_whitespace _ h2
  have hmem1 : "Email wajib diisi" ∈ (ProfileFormUtils.validateForm data).errors := by
    simp [ProfileFormUtils.validateForm, ht]
  have hmem2 : "Format email tidak valid" ∈
      (ProfileFormUtils.validateForm data).errors := by
    simp [ProfileFormUtils.validateForm, ht, hv, h1]
  refine ⟨hmem1, hmem2, ?_⟩
  have hlen : ¬((ProfileFormUtils.validateForm data).errors.length = 0) := by
    intro h0
    rw [List.length_eq_zero] at h0
    rw [h0] at hmem1
    exact absurd hmem1 (List.not_mem_nil _)
  exact decide_eq_false hlen

/-- A profile record whose email is a single space. -/
def wsProfile : ProfileFormData :=
  { fullName := "Putry", position := "Admin", email := " ", phone := "0812",
    location := "Desa", address := "Jalan", twoFactorAuth := false,
    profileImage := none }

/-- Witness for C9 at the single-space email. -/
theorem validateForm_whitespace_email_witness :
    "Email wajib diisi" ∈ (ProfileFormUtils.validateForm wsProfile).errors ∧
    "Format email tidak valid" ∈ (ProfileFormUtils.validateForm wsProfile).errors ∧
    (ProfileFormUtils.validateForm wsProfile).isValid = false :=
  validateForm_whitespace_email wsProfile (by decide) (by decide)
